import Mathlib

/-!
Shallow embedding of the REDCapMatchResolver core (match scoring, report
serialization/parsing, decision store) together with theorems checking the
natural-language specification against it.

Sources embedded:
  * `src/redcapmatchresolver/match_quality.py`   (class MatchQuality)
  * `src/redcapmatchresolver/match_records.py`   (classes MatchRecord, MatchVariable)
  * `src/redcapmatchresolver/redcap_report_writer.py` (class REDCapReportWriter)
  * `src/redcapmatchresolver/redcap_report_reader.py` (classes CrcReason, CrcReview, REDCapReportReader)
  * `src/redcapmatchresolver/redcap_match_resolver.py` (class REDCapMatchResolver)
-/

namespace RedcapMatchResolver

/-- Python's `str.strip()`: remove leading and trailing whitespace.
Implemented over the character list so the kernel can evaluate it. -/
def pyStrip (s : String) : String :=
  String.mk (((s.data.dropWhile Char.isWhitespace).reverse.dropWhile Char.isWhitespace).reverse)

/-- Python's `str.lower()`: character-wise lower-casing.  Implemented over
the character list so the kernel can evaluate it. -/
def pyLower (s : String) : String :=
  String.mk (s.data.map Char.toLower)

/-- Python's substring test `needle in hay`, on explicit character lists:
true iff `needle` occurs contiguously inside `hay`. -/
def listInfixCheck : List Char → List Char → Bool
  | needle, hay =>
    needle.isPrefixOf hay ||
      (match hay with
       | [] => false
       | _ :: t => listInfixCheck needle t)

/-- Python's substring operator `needle in hay` for strings. -/
def pyIn (needle hay : String) : Bool :=
  listInfixCheck needle.data hay.data

/-- Embeds `MatchQuality` from match_quality.py: the closed enum of per-field
comparison outcomes, with the same numeric values. -/
inductive MatchQuality where
  | IGNORED
  | MATCHED_NOPE
  | MATCHED_NULL
  | MATCHED_EXACT
  | MATCHED_CASE_INSENSITIVE
  | MATCHED_ALPHA_NUM
  | MATCHED_SUBSTRING
  | MATCHED_FUZZY
  | MATCHED_CALCULATED
deriving DecidableEq, Repr

/-- Numeric value of each enum member, exactly as in match_quality.py. -/
def MatchQuality.value : MatchQuality → Int
  | .IGNORED => -10
  | .MATCHED_NOPE => -1
  | .MATCHED_NULL => 0
  | .MATCHED_EXACT => 1
  | .MATCHED_CASE_INSENSITIVE => 2
  | .MATCHED_ALPHA_NUM => 3
  | .MATCHED_SUBSTRING => 4
  | .MATCHED_FUZZY => 5
  | .MATCHED_CALCULATED => 6

/-- Embeds `MatchQuality.good_enough`: value strictly positive. -/
def MatchQuality.good_enough (q : MatchQuality) : Bool :=
  decide (0 < q.value)

/-- Embeds `MatchQuality.ignored`: equality with the IGNORED member. -/
def MatchQuality.ignored (q : MatchQuality) : Bool :=
  decide (q = .IGNORED)

/-- Embeds `MatchQuality.__str__` from match_quality.py (NOPE falls through
to the default "-"). -/
def MatchQuality.toStr : MatchQuality → String
  | .IGNORED => "ignored"
  | .MATCHED_EXACT => "exact"
  | .MATCHED_NULL => "null"
  | .MATCHED_CASE_INSENSITIVE => "lower"
  | .MATCHED_ALPHA_NUM => "alphanum"
  | .MATCHED_FUZZY => "fuzzy"
  | .MATCHED_CALCULATED => "calculated"
  | .MATCHED_SUBSTRING => "substring"
  | .MATCHED_NOPE => "-"

/-- Embeds the static helper `MatchRecord.as_alphanum`: keep only the
alphanumeric characters of a string. -/
def asAlphanum (s : String) : String :=
  String.mk (s.data.filter Char.isAlphanum)

/-- Embeds `MatchVariable.__evaluate` from match_records.py: the
first-match-wins cascade classifying two (already trimmed) values given an
ignore list.  A pure function of its three arguments. -/
def evaluate (epicValue redcapValue : String) (ignoreList : List String) : MatchQuality :=
  if epicValue = "" ∧ redcapValue = "" then .MATCHED_NULL
  else if epicValue ∈ ignoreList ∨ redcapValue ∈ ignoreList then .IGNORED
  else if epicValue = "" ∨ redcapValue = "" then .MATCHED_NOPE
  else if epicValue = redcapValue then .MATCHED_EXACT
  else if pyLower epicValue = pyLower redcapValue then .MATCHED_CASE_INSENSITIVE
  else if asAlphanum epicValue = asAlphanum redcapValue then .MATCHED_ALPHA_NUM
  else if 4 ≤ epicValue.length ∧ 4 ≤ redcapValue.length ∧
      (pyIn (pyLower epicValue) (pyLower redcapValue) ∨
       pyIn (pyLower redcapValue) (pyLower epicValue)) then .MATCHED_SUBSTRING
  else .MATCHED_NOPE

/-- Embeds the state of a constructed `MatchVariable` object from
match_records.py: the two stripped values plus the derived quality. -/
structure MatchVariable where
  epic_value : String
  redcap_value : String
  match_quality : MatchQuality
deriving DecidableEq, Repr

/-- Embeds `MatchVariable.__init__` on string inputs: both values are
stripped of surrounding whitespace and the match quality is computed by
`__evaluate` from the stripped values and the ignore list. -/
def mkMatchVariable (epicValue redcapValue : String) (ignoreList : List String := []) :
    MatchVariable :=
  let e := pyStrip epicValue
  let r := pyStrip redcapValue
  { epic_value := e, redcap_value := r, match_quality := evaluate e r ignoreList }

/-- Embeds `MatchVariable.good_enough`. -/
def MatchVariable.good_enough (mv : MatchVariable) : Bool :=
  mv.match_quality.good_enough

/-- Embeds `MatchVariable.ignored`. -/
def MatchVariable.ignored (mv : MatchVariable) : Bool :=
  mv.match_quality.ignored

/-- Python runtime values that may reach `MatchVariable.__init__`: the code
checks `isinstance(..., str)` and raises `TypeError` otherwise. -/
inductive PyObj where
  | pyStr (s : String)
  | pyInt (n : Int)
  | pyNone
deriving DecidableEq, Repr

/-- Whether a Python value is a string (`isinstance(value, str)`). -/
def PyObj.isStr : PyObj → Bool
  | .pyStr _ => true
  | _ => false

/-- Embeds `MatchVariable.__init__` including its dynamic type checks: a
non-string `epic_value` or `redcap_value` raises `TypeError` (modelled as
`Except.error`), so no `MatchVariable` state is ever produced from such
inputs. -/
def constructMatchVariable (epicValue redcapValue : PyObj) (ignoreList : List String) :
    Except String MatchVariable :=
  match epicValue with
  | .pyStr e =>
    match redcapValue with
    | .pyStr r => .ok (mkMatchVariable e r ignoreList)
    | _ => .error "Argument is not a string."
  | _ => .error "Argument is not a string."

/-- Embeds `MatchRecord.SCORE_FIELDS` from match_records.py: the fields used
for computing the match score. -/
def SCORE_FIELDS : List String :=
  ["C_ADDR_CALCULATED", "C_DOB", "C_EMAIL",
   "C_MRN_CALCULATED", "C_NAME_CALCULATED", "C_PHONE_CALCULATED"]

/-- Embeds `MatchRecord.BONUS_SCORE_FIELDS` from match_records.py: if ALL of
these fields match, a bonus score is assigned. -/
def BONUS_SCORE_FIELDS : List String :=
  ["C_ADDR_CALCULATED", "C_DOB", "C_NAME_CALCULATED"]

/-- The count accumulated by the first loop of `MatchRecord.__score_record`:
how many score fields have a good-enough comparison. -/
def countGoodFields (record : String → MatchVariable) : Nat :=
  (SCORE_FIELDS.filter (fun f => (record f).good_enough)).length

/-- The check performed by the second loop of `MatchRecord.__score_record`:
do ALL the bonus fields have a good-enough comparison? -/
def allBonusFieldsMatch (record : String → MatchVariable) : Bool :=
  BONUS_SCORE_FIELDS.all (fun f => (record f).good_enough)

/-- Embeds `MatchRecord.__score_record`: count the good-enough score fields;
if that count is not already above 3 and every bonus field matches, the
score becomes 4. -/
def scoreRecord (record : String → MatchVariable) : Nat :=
  let score := countGoodFields record
  if score > 3 then score
  else if allBonusFieldsMatch record then 4
  else score

/-- Embeds the update-instruction state carried by a `MatchRecord`
(class REDCapUpdate in redcap_update.py: an `update_needed` flag plus the
properties to change).  The `canonical_value` field is modelled from the
spec: the revision operations "record an update instruction (what the other
side's canonical value should become)". -/
structure REDCapUpdate where
  needed : Bool
  canonical_value : String
deriving DecidableEq, Repr

/-- The freshly initialized REDCapUpdate: no update needed. -/
def REDCapUpdate.empty : REDCapUpdate :=
  { needed := false, canonical_value := "" }

/-- Embeds the state of a constructed `MatchRecord` from match_records.py:
the dictionary of per-field comparisons (total function on field names, as
dictionary lookup), the computed score, the identifying fields and the
update instruction. -/
structure MatchRecord where
  record : String → MatchVariable
  score : Nat
  pat_id : String
  study_id : Int
  aliases : String
  mrn_hx : String
  update : REDCapUpdate

/-- Embeds the tail of `MatchRecord.__init__`: after the comparison
dictionary is built, `__score_record` fixes the score; the update
instruction starts empty. -/
def mkMatchRecord (record : String → MatchVariable) (patId : String) (studyId : Int)
    (aliasValue mrnHx : String) : MatchRecord :=
  { record := record, score := scoreRecord record, pat_id := patId,
    study_id := studyId, aliases := aliasValue, mrn_hx := mrnHx,
    update := REDCapUpdate.empty }

/-- Python's `"%-Ns" % s` formatting: left-justify in a field of width `N`
(never truncates). -/
def leftJustify (s : String) (width : Nat) : String :=
  s ++ String.mk (List.replicate (width - s.data.length) ' ')

/-- Embeds `MatchVariable.summarize_match`: render one summary row using
`MatchRecord.FORMAT` = `"%-20s %-40s %-40s"` followed by `"[%s]"`. -/
def summarize_match (mv : MatchVariable) (commonName : String) : String :=
  leftJustify commonName 20 ++ " " ++ leftJustify mv.epic_value 40 ++ " " ++
    leftJustify mv.redcap_value 40 ++ "[" ++ mv.match_quality.toStr ++ "]"

/-- The column-header row emitted by `MatchRecord.__init_summary` (the
`FORMAT` string applied to the four column titles). -/
def summaryHeaderRow : String :=
  leftJustify "Common Name" 20 ++ " " ++ leftJustify "Epic Value" 40 ++ " " ++
    leftJustify "RedCap Value" 40 ++ "Match Quality" ++ "\n"

/-- Embeds `MatchRecord.__init_summary`: the block of identifying lines plus
the column-header row. -/
def initSummary (m : MatchRecord) : String :=
  "-------------\n" ++
    "Study ID: " ++ toString m.study_id ++ "\n" ++
    "PAT_ID: " ++ m.pat_id ++ "\n" ++
    "Aliases: " ++ m.aliases ++ "\n" ++
    "Other MRNs: " ++ m.mrn_hx ++ "\n" ++
    summaryHeaderRow

/-- The loop in `MatchRecord.is_match` that appends one `summarize_match`
row (plus newline) per score field. -/
def summaryLines (record : String → MatchVariable) : List String → String
  | [] => ""
  | f :: rest => summarize_match (record f) f ++ "\n" ++ summaryLines record rest

/-- Embeds `MatchRecord.is_match`: summary built from `__init_summary`, one
row per score field and a closing separator; the boolean is score ≥ criteria,
replaced by score = criteria when `exact` is set. -/
def is_match (m : MatchRecord) (exact : Bool) (criteria : Nat) : Bool × String :=
  let summary := initSummary m ++ summaryLines m.record SCORE_FIELDS ++ "-------------\n"
  let goodMatch := decide (criteria ≤ m.score)
  let goodMatch := if exact then decide (m.score = criteria) else goodMatch
  (goodMatch, summary)

/-- Modelled from the spec: the helper `clean_up_phone` lives in the external
`redcaputilities` package, not in this repository, so it is reconstructed
from the spec's words — normalize to digits, drop a country-code 1 prefix,
reject placeholder all-zero or all-nine sequences, and render ten digits in
ddd-ddd-dddd form. -/
def cleanUpPhone (s : String) : String :=
  let digits := s.data.filter Char.isDigit
  let digits := if digits.length = 11 ∧ digits.head? = some '1' then digits.drop 1 else digits
  if digits.all (· = '0') ∨ digits.all (· = '9') then ""
  else if digits.length = 10 then
    String.mk (digits.take 3) ++ "-" ++ String.mk ((digits.drop 3).take 3) ++ "-" ++
      String.mk (digits.drop 6)
  else String.mk digits

/-- Embeds `MatchRecord.__select_best_phone` (after the phone values have
already been cleaned): compare the Epic home phone to the REDCap phone; when
that comparison is neither ignored nor good enough try the work phone, and
then the mobile phone, with exactly the nesting of the source. -/
def selectBestPhone (homePhone workPhone mobilePhone redcapPhone : String)
    (facilityPhoneNumbers : List String) : MatchVariable :=
  let mv := mkMatchVariable homePhone redcapPhone facilityPhoneNumbers
  if mv.ignored then mv
  else
    let mv := if mv.good_enough then mv
      else mkMatchVariable workPhone redcapPhone facilityPhoneNumbers
    if mv.ignored then mv
    else if mv.good_enough then mv
    else mkMatchVariable mobilePhone redcapPhone facilityPhoneNumbers

/-- The stop condition of the spec's phone-candidate scan: a candidate wins
when its comparison against the REDCap phone is good enough or ignored. -/
def phoneStops (candidate redcapPhone : String) (facilityPhoneNumbers : List String) : Bool :=
  (mkMatchVariable candidate redcapPhone facilityPhoneNumbers).good_enough ||
    (mkMatchVariable candidate redcapPhone facilityPhoneNumbers).ignored

/-- Modelled from the spec: `use_aliases` / `use_history` are referenced by
the test-suite but absent from the sources, so the shared revision step is
reconstructed from the spec's words — if the given field's comparison is not
good enough and the other side's value matches one of the authoritative
values, force the field to "matched", add the one flipped field to the
score, and record the update instruction. -/
def reviseField (m : MatchRecord) (field : String) (authoritative : List String) :
    MatchRecord :=
  let mv := m.record field
  if mv.good_enough then m
  else
    match authoritative.find? (fun a => (mkMatchVariable a mv.redcap_value).good_enough) with
    | none => m
    | some a =>
      { m with
        record := fun f =>
          if f = field then { mv with match_quality := .MATCHED_CALCULATED }
          else m.record f,
        score := m.score + 1,
        update := { needed := true, canonical_value := a } }

/-- The number of fields `reviseField` flips from not-good-enough to
good-enough (zero or one). -/
def reviseFlips (m : MatchRecord) (field : String) (authoritative : List String) : Nat :=
  let mv := m.record field
  if mv.good_enough then 0
  else
    match authoritative.find? (fun a => (mkMatchVariable a mv.redcap_value).good_enough) with
    | none => 0
    | some _ => 1

/-- Modelled from the spec: revision with authoritative Epic aliases acts on
the derived name field. -/
def use_aliases (m : MatchRecord) (aliases : List String) : MatchRecord :=
  reviseField m "C_NAME_CALCULATED" aliases

/-- Modelled from the spec: revision with authoritative historical MRNs acts
on the derived MRN field. -/
def use_mrn_hx (m : MatchRecord) (mrnHx : List String) : MatchRecord :=
  reviseField m "C_MRN_CALCULATED" mrnHx

/-- Embeds `REDCapReportWriter.addendum` from redcap_report_writer.py:
the review checklist appended after every match block. -/
def addendum : String :=
  "Review: ABOVE (↑) patients are\n" ++
    "    ☐ Same\n" ++
    "    ☐ NOT Same: Relatives\n" ++
    "    ☐ NOT Same: Living at same address\n" ++
    "    ☐ NOT Same: Parent & child\n" ++
    "    ☐ NOT Same: Other\n\n" ++
    "Notes:...................................................\n\n"

/-- The sequential numbering line emitted by `REDCapReportWriter.write`. -/
def recordNumberingLine (index total : Nat) : String :=
  "Record " ++ toString index ++ " of " ++ toString total ++ "\n"

/-- The loop of `REDCapReportWriter.write`: each stored match block is
followed by its numbering line and the addendum. -/
def writeReportsAux (total : Nat) : List String → Nat → String
  | [], _ => ""
  | matchBlock :: rest, index =>
    matchBlock ++ recordNumberingLine index total ++ addendum ++
      writeReportsAux total rest (index + 1)

/-- Embeds the text appended to the report file by `REDCapReportWriter.write`
for a batch of stored match blocks. -/
def writeReports (reports : List String) : String :=
  writeReportsAux reports.length reports 1

/-- Embeds `REDCapReportReader.__separator`. -/
def reportSeparator : String := "------"

/-- The characters of the `positive_marks` string in
`REDCapReportReader.__read_crc_decision` (note that a plain dot is one of
them). -/
def positiveMarks : List Char :=
  ['.', 'x', 'X', 'y', 'Y', '✓', '✔', '√', '✅', '❎', '☒', '☑', '✕', '✗', '✘', '✖', '❌']

/-- Python's `any(elem in decision_line for elem in positive_marks)`:
does the line contain one of the mark characters? -/
def containsMark (line : String) : Bool :=
  positiveMarks.any (fun c => line.data.contains c)

/-- Embeds `CrcReason` from redcap_report_reader.py. -/
inductive CrcReason where
  | FAMILY
  | SAME_ADDRESS
  | PARENT_CHILD
  | OTHER
deriving DecidableEq, Repr

/-- Embeds `CrcReason.convert` on string input. -/
def CrcReason.convert (decision : String) : CrcReason :=
  if pyIn "family members" (pyLower decision) then .FAMILY
  else if pyIn "same address" (pyLower decision) then .SAME_ADDRESS
  else if pyIn "parent" (pyLower decision) then .PARENT_CHILD
  else .OTHER

/-- Embeds `CrcReview` from redcap_report_reader.py (named `DecisionReview`
by its callers): the reviewer's decision, numerically ordered so that MATCH
is highest. -/
inductive CrcReview where
  | MATCH
  | NO_MATCH
  | NOT_SURE
deriving DecidableEq, Repr

/-- The numeric value of each `CrcReview` member (MATCH = 3, NO_MATCH = 2,
NOT_SURE = 1); the class's comparison operators compare these values. -/
def CrcReview.value : CrcReview → Nat
  | .MATCH => 3
  | .NO_MATCH => 2
  | .NOT_SURE => 1

/-- Embeds `CrcReview.convert` on string input: anything other than the two
literal decision strings becomes NOT_SURE. -/
def CrcReview.convert (decisions : String) : CrcReview :=
  if decisions = "MATCH" then .MATCH
  else if decisions = "NO_MATCH" then .NO_MATCH
  else .NOT_SURE

/-- Embeds `REDCapReportReader.__read_crc_decision`, operating on the lines
that follow the block's closing separator: scan to the first line containing
"Same"; if it carries a mark the decision is MATCH; otherwise scan forward
until a separator or a marked line; a marked line yields NO_MATCH with the
converted reason, and exhausting the input (or hitting the separator) leaves
the decision undefined (`none`). -/
def readCrcDecision (lines : List String) : Option CrcReview × Option CrcReason :=
  match lines.dropWhile (fun l => !(pyIn "Same" l)) with
  | [] => (none, none)
  | sameLine :: rest =>
    if sameLine.data.length = 0 then (none, none)
    else if containsMark sameLine then (some .MATCH, none)
    else
      match rest.dropWhile (fun l => !(pyIn reportSeparator l) && !(containsMark l)) with
      | [] => (none, none)
      | stopLine :: _ =>
        if pyIn reportSeparator stopLine then (none, none)
        else (some .NO_MATCH, some (CrcReason.convert stopLine))

/-- The recursion behind `REDCapReportReader.__break_into_pieces`: split a
character list at each maximal run of two or more whitespace characters
(Python's `re.split` on the pattern of two-or-more whitespace).  The second
argument accumulates the pending whitespace run and the third the current
piece, both in reverse. -/
def splitRunsAux : List Char → List Char → List Char → List (List Char)
  | [], ws, cur =>
    if 2 ≤ ws.length then [cur.reverse, []]
    else [(ws ++ cur).reverse]
  | c :: rest, ws, cur =>
    if c.isWhitespace then splitRunsAux rest (c :: ws) cur
    else if 2 ≤ ws.length then cur.reverse :: splitRunsAux rest [] [c]
    else splitRunsAux rest [] (c :: (ws ++ cur))

/-- Embeds `REDCapReportReader.__break_into_pieces`: split on runs of two or
more whitespace characters and drop empty pieces. -/
def breakIntoPieces (dataLine : String) : List String :=
  ((splitRunsAux dataLine.data [] []).map String.mk).filter (fun piece => piece ≠ "")

/-- Embeds `REDCapReportReader._find_column`: the zero-based index of the
piece exactly equal to the keyword; `none` models the `RuntimeError` raised
when no piece equals it. -/
def findColumn (dataLine keyword : String) : Option Nat :=
  let pieces := breakIntoPieces dataLine
  if pieces.contains keyword then some (pieces.indexOf keyword) else none

/-- Python's `readlines`: split text into lines, each keeping its trailing
newline; a final fragment without a newline is kept, an empty one is not. -/
def splitLinesAux : List Char → List Char → List String
  | [], cur => if cur.isEmpty then [] else [String.mk cur.reverse]
  | c :: rest, cur =>
    if c = '\n' then String.mk (c :: cur).reverse :: splitLinesAux rest []
    else splitLinesAux rest (c :: cur)

/-- Python's `readlines` on a string. -/
def pyReadlines (s : String) : List String :=
  splitLinesAux s.data []

/-- One row of the decision store's `matches` table joined with the
`decisions` lookup table: the identifying fields plus the decision text
(as in `REDCapMatchResolver.lookup_potential_match`'s query). -/
structure MatchRow where
  pat_id : String
  study_id : Int
  decision : String
deriving DecidableEq, Repr

/-- Python's `max` over a nonempty sequence of `CrcReview` values, using the
class's ordering: keep the current element unless a later one is strictly
greater. -/
def maxDecision (first : CrcReview) (rest : List CrcReview) : CrcReview :=
  rest.foldl (fun acc x => if acc.value < x.value then x else acc) first

/-- Embeds the decision-resolution logic of
`REDCapMatchResolver.lookup_potential_match`: fetch the decisions of all
stored rows whose PAT_ID and study_id equal the queried key; with no rows
the answer is NOT_SURE, otherwise the `max` of the converted decisions. -/
def lookup_potential_match (table : List MatchRow) (patId : String) (studyId : Int) :
    CrcReview :=
  let rows := table.filter (fun r => r.pat_id = patId ∧ r.study_id = studyId)
  match rows.map (fun r => CrcReview.convert r.decision) with
  | [] => .NOT_SURE
  | d :: ds => maxDecision d ds

/-- A concrete comparison dictionary in which exactly the three bonus fields
(address, DOB, name) are good enough. -/
def bonusOnlyRecord : String → MatchVariable := fun f =>
  if f ∈ BONUS_SCORE_FIELDS then mkMatchVariable "matched" "matched"
  else mkMatchVariable "left" "right"

/-- A concrete comparison dictionary whose only non-null comparison is the
Mockingbird Lane address pair. -/
def mockingbirdRecord : String → MatchVariable := fun f =>
  if f = "C_ADDR_CALCULATED" then
    mkMatchVariable "1313 Mockingbird Lane" "1313 Mockingbird Ln"
  else mkMatchVariable "" ""

/-- A concrete `MatchRecord` used to exercise the summary and report
round-trip at an explicit input. -/
def demoMatchRecord : MatchRecord :=
  mkMatchRecord bonusOnlyRecord "A56789" 1234 "Smith,John" "99123"

/-- The serialized report produced by the writer for a one-record batch
whose block is the summary that `is_match` renders for the demo record. -/
def demoReportText : String :=
  writeReports [(is_match demoMatchRecord false 5).2]

/-- A concrete `MatchRecord` whose derived name comparison is not good
enough, while an authoritative alias does match the REDCap name. -/
def demoRevisionRecord : MatchRecord :=
  mkMatchRecord
    (fun f =>
      if f = "C_NAME_CALCULATED" then mkMatchVariable "Smith,Alice" "Smyth,Alan"
      else mkMatchVariable "" "")
    "P1" 5 "" ""

/-- C1: for every pair of input strings (trimmed on construction) and every
ignore-list, `MatchVariable` classifies the pair by first-match-wins
precedence: both empty gives MATCHED_NULL; otherwise either value in the
ignore-list gives IGNORED; otherwise either value empty gives MATCHED_NOPE;
otherwise exact equality gives MATCHED_EXACT; otherwise case-insensitive
equality gives MATCHED_CASE_INSENSITIVE; otherwise equality after stripping
non-alphanumeric characters gives MATCHED_ALPHA_NUM; otherwise both lengths
at least 4 and one being a case-insensitive substring of the other gives
MATCHED_SUBSTRING; otherwise MATCHED_NOPE.  The classification is the pure
function `evaluate` of the two trimmed values and the ignore-list. -/
theorem C1_matchVariable_classification (epicRaw redcapRaw : String)
    (ignoreList : List String) :
    (pyStrip epicRaw = "" ∧ pyStrip redcapRaw = "" →
      (mkMatchVariable epicRaw redcapRaw ignoreList).match_quality = .MATCHED_NULL) ∧
    (¬(pyStrip epicRaw = "" ∧ pyStrip redcapRaw = "") →
      (pyStrip epicRaw ∈ ignoreList ∨ pyStrip redcapRaw ∈ ignoreList) →
      (mkMatchVariable epicRaw redcapRaw ignoreList).match_quality = .IGNORED) ∧
    (¬(pyStrip epicRaw = "" ∧ pyStrip redcapRaw = "") →
      ¬(pyStrip epicRaw ∈ ignoreList ∨ pyStrip redcapRaw ∈ ignoreList) →
      (pyStrip epicRaw = "" ∨ pyStrip redcapRaw = "") →
      (mkMatchVariable epicRaw redcapRaw ignoreList).match_quality = .MATCHED_NOPE) ∧
    (¬(pyStrip epicRaw = "" ∧ pyStrip redcapRaw = "") →
      ¬(pyStrip epicRaw ∈ ignoreList ∨ pyStrip redcapRaw ∈ ignoreList) →
      ¬(pyStrip epicRaw = "" ∨ pyStrip redcapRaw = "") →
      pyStrip epicRaw = pyStrip redcapRaw →
      (mkMatchVariable epicRaw redcapRaw ignoreList).match_quality = .MATCHED_EXACT) ∧
    (¬(pyStrip epicRaw = "" ∧ pyStrip redcapRaw = "") →
      ¬(pyStrip epicRaw ∈ ignoreList ∨ pyStrip redcapRaw ∈ ignoreList) →
      ¬(pyStrip epicRaw = "" ∨ pyStrip redcapRaw = "") →
      ¬(pyStrip epicRaw = pyStrip redcapRaw) →
      pyLower (pyStrip epicRaw) = pyLower (pyStrip redcapRaw) →
      (mkMatchVariable epicRaw redcapRaw ignoreList).match_quality =
        .MATCHED_CASE_INSENSITIVE) ∧
    (¬(pyStrip epicRaw = "" ∧ pyStrip redcapRaw = "") →
      ¬(pyStrip epicRaw ∈ ignoreList ∨ pyStrip redcapRaw ∈ ignoreList) →
      ¬(pyStrip epicRaw = "" ∨ pyStrip redcapRaw = "") →
      ¬(pyStrip epicRaw = pyStrip redcapRaw) →
      ¬(pyLower (pyStrip epicRaw) = pyLower (pyStrip redcapRaw)) →
      asAlphanum (pyStrip epicRaw) = asAlphanum (pyStrip redcapRaw) →
      (mkMatchVariable epicRaw redcapRaw ignoreList).match_quality =
        .MATCHED_ALPHA_NUM) ∧
    (¬(pyStrip epicRaw = "" ∧ pyStrip redcapRaw = "") →
      ¬(pyStrip epicRaw ∈ ignoreList ∨ pyStrip redcapRaw ∈ ignoreList) →
      ¬(pyStrip epicRaw = "" ∨ pyStrip redcapRaw = "") →
      ¬(pyStrip epicRaw = pyStrip redcapRaw) →
      ¬(pyLower (pyStrip epicRaw) = pyLower (pyStrip redcapRaw)) →
      ¬(asAlphanum (pyStrip epicRaw) = asAlphanum (pyStrip redcapRaw)) →
      (4 ≤ (pyStrip epicRaw).length ∧ 4 ≤ (pyStrip redcapRaw).length ∧
        (pyIn (pyLower (pyStrip epicRaw)) (pyLower (pyStrip redcapRaw)) ∨
         pyIn (pyLower (pyStrip redcapRaw)) (pyLower (pyStrip epicRaw)))) →
      (mkMatchVariable epicRaw redcapRaw ignoreList).match_quality =
        .MATCHED_SUBSTRING) ∧
    (¬(pyStrip epicRaw = "" ∧ pyStrip redcapRaw = "") →
      ¬(pyStrip epicRaw ∈ ignoreList ∨ pyStrip redcapRaw ∈ ignoreList) →
      ¬(pyStrip epicRaw = "" ∨ pyStrip redcapRaw = "") →
      ¬(pyStrip epicRaw = pyStrip redcapRaw) →
      ¬(pyLower (pyStrip epicRaw) = pyLower (pyStrip redcapRaw)) →
      ¬(asAlphanum (pyStrip epicRaw) = asAlphanum (pyStrip redcapRaw)) →
      ¬(4 ≤ (pyStrip epicRaw).length ∧ 4 ≤ (pyStrip redcapRaw).length ∧
        (pyIn (pyLower (pyStrip epicRaw)) (pyLower (pyStrip redcapRaw)) ∨
         pyIn (pyLower (pyStrip redcapRaw)) (pyLower (pyStrip epicRaw)))) →
      (mkMatchVariable epicRaw redcapRaw ignoreList).match_quality =
        .MATCHED_NOPE) := by
  refine ⟨?_, ?_, ?_, ?_, ?_, ?_, ?_, ?_⟩ <;>
    intros <;> simp_all [mkMatchVariable, evaluate]

/-- C1 witness: the case-insensitive rule fires on a concrete pair whose raw
values carry surrounding whitespace. -/
theorem C1_witness :
    (mkMatchVariable " Alice " "alice" []).match_quality = .MATCHED_CASE_INSENSITIVE := by
  have h := (C1_matchVariable_classification " Alice " "alice" []).2.2.2.2.1
  exact h (by decide) (by decide) (by decide) (by decide) (by decide)

/-- C10: construction stores both values stripped of surrounding whitespace,
the match quality is the pure function `evaluate` of the two trimmed values
and the ignore-list (fixed at construction; the embedding has no mutating
operation on `MatchVariable`), and any non-string input yields a type error
instead of a constructed value. -/
theorem C10_matchVariable_construction (e r : String) (x y : PyObj) (ig : List String) :
    (constructMatchVariable (.pyStr e) (.pyStr r) ig =
      .ok { epic_value := pyStrip e, redcap_value := pyStrip r,
            match_quality := evaluate (pyStrip e) (pyStrip r) ig }) ∧
    ((x.isStr && y.isStr) = false →
      ∃ msg, constructMatchVariable x y ig = .error msg) := by
  constructor
  · rfl
  · intro h
    cases x <;> cases y <;> simp_all [constructMatchVariable, PyObj.isStr]

/-- C10 witness: string inputs with whitespace come back trimmed with an
exactly evaluated quality, and an integer input is rejected. -/
theorem C10_witness :
    (constructMatchVariable (.pyStr " Alice ") (.pyStr "Alice") [] =
      .ok { epic_value := pyStrip " Alice ", redcap_value := pyStrip "Alice",
            match_quality := evaluate (pyStrip " Alice ") (pyStrip "Alice") [] }) ∧
    (∃ msg, constructMatchVariable (.pyInt 1979) (.pyStr "Alice") [] = .error msg) :=
  ⟨(C10_matchVariable_construction " Alice " "Alice" (.pyInt 1979) (.pyStr "Alice") []).1,
   (C10_matchVariable_construction " Alice " "Alice" (.pyInt 1979) (.pyStr "Alice") []).2
     (by decide)⟩

/-- C2: the record score is the count of designated score fields whose
comparison is good enough, except that when all bonus fields (address, DOB,
name) are independently good enough and that count does not already exceed
3, the score is forced to the fixed bonus value 4; in particular a record
whose naive count is exactly the three bonus fields scores 4. -/
theorem C2_score_bonus :
    (∀ record : String → MatchVariable,
      scoreRecord record =
        if allBonusFieldsMatch record = true ∧ countGoodFields record ≤ 3 then 4
        else countGoodFields record) ∧
    countGoodFields bonusOnlyRecord = 3 ∧ scoreRecord bonusOnlyRecord = 4 := by
  refine ⟨fun record => ?_, by decide, by decide⟩
  simp only [scoreRecord]
  split_ifs <;> (simp_all; try omega)

/-- For every field of a list, the concatenated summary rows contain that
field's `summarize_match` row. -/
theorem summaryLines_mem (record : String → MatchVariable) (fs : List String)
    (f : String) (hf : f ∈ fs) :
    ∃ pre post,
      summaryLines record fs = pre ++ (summarize_match (record f) f ++ "\n") ++ post := by
  induction fs with
  | nil => cases hf
  | cons a rest ih =>
    rcases List.mem_cons.mp hf with rfl | h
    · exact ⟨"", summaryLines record rest, by simp [summaryLines, String.append_assoc]⟩
    · obtain ⟨pre, post, hpp⟩ := ih h
      exact ⟨summarize_match (record a) a ++ "\n" ++ pre, post, by
        simp [summaryLines, hpp, String.append_assoc]⟩

/-- C7: `is_match` returns a pair whose boolean component is score ≥
criteria when `exact` is false and score = criteria when `exact` is true,
and whose summary contains, for every designated score field, the
`summarize_match` row carrying the two compared values and the quality
label. -/
theorem C7_is_match_spec (m : MatchRecord) (exact : Bool) (criteria : Nat) :
    ((is_match m exact criteria).1 = true ↔
      (if exact = true then m.score = criteria else criteria ≤ m.score)) ∧
    (∀ f, f ∈ SCORE_FIELDS → ∃ pre post,
      (is_match m exact criteria).2 =
        pre ++ (summarize_match (m.record f) f ++ "\n") ++ post) := by
  constructor
  · cases exact <;> simp [is_match]
  · intro f hf
    obtain ⟨pre, post, hpp⟩ := summaryLines_mem m.record SCORE_FIELDS f hf
    refine ⟨initSummary m ++ pre, post ++ "-------------\n", ?_⟩
    simp [is_match, hpp, String.append_assoc]

/-- C7 witness: at a concrete record, the DOB summary row is present in the
summary and the boolean component compares score and criteria as claimed. -/
theorem C7_witness :
    ((is_match demoMatchRecord false 4).1 = true ↔ 4 ≤ demoMatchRecord.score) ∧
    (∃ pre post,
      (is_match demoMatchRecord false 4).2 =
        pre ++ (summarize_match (demoMatchRecord.record "C_DOB") "C_DOB" ++ "\n") ++ post) := by
  refine ⟨?_, (C7_is_match_spec demoMatchRecord false 4).2 "C_DOB" (by decide)⟩
  have h := (C7_is_match_spec demoMatchRecord false 4).1
  simpa using h

/-- C6: the derived phone comparison tries the Epic candidates in the fixed
order home, work, mobile against the single REDCap phone, stopping at the
first candidate whose comparison is good enough or ignored (falling through
to the mobile comparison when none stops); in particular an empty home phone
with work phone 800-555-1212 against the same REDCap number falls through to
the work phone and classifies EXACT. -/
theorem C6_select_best_phone (home work mobile redcap : String) (ig : List String) :
    (selectBestPhone home work mobile redcap ig =
      match [home, work, mobile].find? (fun c => phoneStops c redcap ig) with
      | some c => mkMatchVariable c redcap ig
      | none => mkMatchVariable mobile redcap ig) ∧
    (selectBestPhone (cleanUpPhone "") (cleanUpPhone "800-555-1212") ""
        (cleanUpPhone "800-555-1212") []).match_quality = .MATCHED_EXACT := by
  refine ⟨?_, by decide⟩
  by_cases h1 : (mkMatchVariable home redcap ig).ignored = true
  · simp [selectBestPhone, List.find?, phoneStops, h1]
  · by_cases h2 : (mkMatchVariable home redcap ig).good_enough = true
    · simp [selectBestPhone, List.find?, phoneStops, h1, h2]
    · by_cases h3 : (mkMatchVariable work redcap ig).ignored = true
      · simp [selectBestPhone, List.find?, phoneStops, h1, h2, h3]
      · by_cases h4 : (mkMatchVariable work redcap ig).good_enough = true
        · simp [selectBestPhone, List.find?, phoneStops, h1, h2, h3, h4]
        · cases h5 : (mkMatchVariable mobile redcap ig).good_enough ||
              (mkMatchVariable mobile redcap ig).ignored <;>
            simp [selectBestPhone, List.find?, phoneStops, h1, h2, h3, h4, h5]

theorem maxDecision_mem (d : CrcReview) (ds : List CrcReview) :
    maxDecision d ds ∈ d :: ds := by
  induction ds generalizing d with
  | nil => simp [maxDecision]
  | cons x xs ih =>
    have step : maxDecision d (x :: xs) =
        maxDecision (if d.value < x.value then x else d) xs := rfl
    rw [step]
    rcases List.mem_cons.mp (ih (if d.value < x.value then x else d)) with h | h
    · rw [h]
      split_ifs <;> simp
    · simp [h]

theorem maxDecision_le (d : CrcReview) (ds : List CrcReview) :
    ∀ x ∈ d :: ds, x.value ≤ (maxDecision d ds).value := by
  induction ds generalizing d with
  | nil => simp [maxDecision]
  | cons y ys ih =>
    intro x hx
    rcases List.mem_cons.mp hx with rfl | hx2
    · have h1 : x.value ≤ (if x.value < y.value then y else x).value := by
        split_ifs <;> omega
      calc x.value ≤ (if x.value < y.value then y else x).value := h1
        _ ≤ (maxDecision (if x.value < y.value then y else x) ys).value :=
          ih _ _ (List.mem_cons_self _ _)
    · rcases List.mem_cons.mp hx2 with rfl | hx3
      · have h1 : x.value ≤ (if d.value < x.value then x else d).value := by
          split_ifs <;> omega
        calc x.value ≤ (if d.value < x.value then x else d).value := h1
          _ ≤ (maxDecision (if d.value < x.value then x else d) ys).value :=
            ih _ _ (List.mem_cons_self _ _)
      · exact ih _ x (List.mem_cons_of_mem _ hx3)

/-- C3: for an identifying key (PAT_ID, study_id), when the store holds rows
for that key the lookup answer is among the stored decisions and is greatest
under the order MATCH > NO_MATCH > NOT_SURE; with zero matching rows the
answer is NOT_SURE; and with stored NOT_SURE, NO_MATCH and MATCH rows for
one key the answer is MATCH. -/
theorem C3_lookup_precedence (table : List MatchRow) (patId : String) (studyId : Int) :
    ((table.filter (fun r => r.pat_id = patId ∧ r.study_id = studyId)).map
        (fun r => CrcReview.convert r.decision) = [] →
      lookup_potential_match table patId studyId = .NOT_SURE) ∧
    (∀ d ∈ (table.filter (fun r => r.pat_id = patId ∧ r.study_id = studyId)).map
        (fun r => CrcReview.convert r.decision),
      d.value ≤ (lookup_potential_match table patId studyId).value) ∧
    ((table.filter (fun r => r.pat_id = patId ∧ r.study_id = studyId)).map
        (fun r => CrcReview.convert r.decision) ≠ [] →
      lookup_potential_match table patId studyId ∈
        (table.filter (fun r => r.pat_id = patId ∧ r.study_id = studyId)).map
          (fun r => CrcReview.convert r.decision)) ∧
    lookup_potential_match
      [⟨patId, studyId, "NOT_SURE"⟩, ⟨patId, studyId, "NO_MATCH"⟩,
       ⟨patId, studyId, "MATCH"⟩] patId studyId = .MATCH := by
  refine ⟨?_, ?_, ?_, ?_⟩
  · intro h
    simp only [lookup_potential_match]
    rw [h]
  · intro d hd
    simp only [lookup_potential_match]
    rcases hmap : (table.filter (fun r => r.pat_id = patId ∧ r.study_id = studyId)).map
        (fun r => CrcReview.convert r.decision) with _ | ⟨d0, ds⟩
    · rw [hmap] at hd
      cases hd
    · rw [hmap] at hd
      rw [hmap]
      exact maxDecision_le d0 ds d hd
  · intro h
    simp only [lookup_potential_match]
    rcases hmap : (table.filter (fun r => r.pat_id = patId ∧ r.study_id = studyId)).map
        (fun r => CrcReview.convert r.decision) with _ | ⟨d0, ds⟩
    · exact absurd hmap h
    · rw [hmap]
      exact maxDecision_mem d0 ds
  · simp [lookup_potential_match, List.filter, CrcReview.convert, maxDecision,
      CrcReview.value]

/-- C3 witness: zero rows give NOT_SURE and the mixed three-decision store
gives MATCH for a concrete key. -/
theorem C3_witness :
    lookup_potential_match [] "A1" 7 = .NOT_SURE ∧
    lookup_potential_match
      [⟨"A1", 7, "NOT_SURE"⟩, ⟨"A1", 7, "NO_MATCH"⟩, ⟨"A1", 7, "MATCH"⟩] "A1" 7 =
      .MATCH :=
  ⟨(C3_lookup_precedence [] "A1" 7).1 (by decide),
   (C3_lookup_precedence [] "A1" 7).2.2.2⟩

/-- C8 counterexample: comparing "1313 Mockingbird Lane" with
"1313 Mockingbird Ln" under an empty ignore-list classifies MATCHED_NOPE,
not MATCHED_SUBSTRING — "ln" is not a contiguous substring of "lane". -/
theorem C8_counterexample :
    (mkMatchVariable "1313 Mockingbird Lane" "1313 Mockingbird Ln" []).match_quality =
      .MATCHED_NOPE ∧
    ¬((mkMatchVariable "1313 Mockingbird Lane" "1313 Mockingbird Ln" []).match_quality =
      .MATCHED_SUBSTRING) := by
  decide

/-- C8 amended: the Mockingbird pair classifies NOPE, which is not good
enough and contributes 0 to the record score. -/
theorem C8_amended_mockingbird :
    (mkMatchVariable "1313 Mockingbird Lane" "1313 Mockingbird Ln" []).match_quality =
      .MATCHED_NOPE ∧
    (mkMatchVariable "1313 Mockingbird Lane" "1313 Mockingbird Ln" []).good_enough =
      false ∧
    scoreRecord mockingbirdRecord = 0 := by
  decide

/-- C4: evaluating the code at the failing input — the reader's seek loop
selects the writer's own column-header row (the first line containing
"Epic Val"), and `_find_column` then finds no whitespace-delimited piece
exactly equal to "Epic Val" (the header says "Epic Value"), which the source
turns into a RuntimeError; the serializer-parser round trip therefore raises
instead of producing rows. -/
theorem C4_reader_rejects_writer_header :
    ((pyReadlines demoReportText).find? (fun l => pyIn "Epic Val" l)).isSome = true ∧
    findColumn
      (((pyReadlines demoReportText).find? (fun l => pyIn "Epic Val" l)).getD "")
      "Epic Val" = none := by
  decide

/-- C5: evaluating the code at the failing input — in the writer's unmarked
review section no "Same" / "NOT Same" line carries a mark character, yet
`__read_crc_decision` returns NO_MATCH with reason OTHER (the dots of the
"Notes:..." line count as positive marks), not NOT_SURE. -/
theorem C5_unmarked_block_decision :
    (((pyReadlines (recordNumberingLine 1 1 ++ addendum)).filter
        (fun l => pyIn "Same" l)).all (fun l => !(containsMark l))) = true ∧
    readCrcDecision (pyReadlines (recordNumberingLine 1 1 ++ addendum)) =
      (some .NO_MATCH, some .OTHER) := by
  decide

/-- The shared revision step: its score bookkeeping, monotonicity, and the
effect of an actual flip on the revised field and the update instruction. -/
theorem reviseField_spec (m : MatchRecord) (field : String) (auth : List String) :
    ((reviseField m field auth).score = m.score + reviseFlips m field auth) ∧
    (m.score ≤ (reviseField m field auth).score) ∧
    (reviseFlips m field auth = 1 →
      ((reviseField m field auth).record field).good_enough = true ∧
      ((reviseField m field auth).record field).match_quality = .MATCHED_CALCULATED ∧
      (reviseField m field auth).update.needed = true) := by
  by_cases hg : (m.record field).good_enough = true
  · simp [reviseField, reviseFlips, hg]
  · rcases hfind : auth.find?
        (fun a => (mkMatchVariable a (m.record field).redcap_value).good_enough) with _ | a
    · simp [reviseField, reviseFlips, hg, hfind]
    · have hrec : (reviseField m field auth).record field =
          { m.record field with match_quality := .MATCHED_CALCULATED } := by
        simp [reviseField, hg, hfind]
      have hupd : (reviseField m field auth).update.needed = true := by
        simp [reviseField, hg, hfind]
      refine ⟨?_, ?_, ?_⟩
      · simp [reviseField, reviseFlips, hg, hfind]
      · simp [reviseField, reviseFlips, hg, hfind]
      · intro _
        rw [hrec]
        exact ⟨rfl, rfl, hupd⟩

/-- C9: the spec-modelled revision operations `use_aliases` / `use_mrn_hx`
increase the score by exactly the number of fields that flipped from
not-good-enough to good-enough (zero or one), never lower it, and on an
actual flip force the revised field to a matched quality and record an
update instruction. -/
theorem C9_revision_monotonic (m : MatchRecord) (aliases mrnHx : List String) :
    ((use_aliases m aliases).score =
      m.score + reviseFlips m "C_NAME_CALCULATED" aliases) ∧
    (m.score ≤ (use_aliases m aliases).score) ∧
    (reviseFlips m "C_NAME_CALCULATED" aliases = 1 →
      ((use_aliases m aliases).record "C_NAME_CALCULATED").good_enough = true ∧
      ((use_aliases m aliases).record "C_NAME_CALCULATED").match_quality =
        .MATCHED_CALCULATED ∧
      (use_aliases m aliases).update.needed = true) ∧
    ((use_mrn_hx m mrnHx).score =
      m.score + reviseFlips m "C_MRN_CALCULATED" mrnHx) ∧
    (m.score ≤ (use_mrn_hx m mrnHx).score) ∧
    (reviseFlips m "C_MRN_CALCULATED" mrnHx = 1 →
      ((use_mrn_hx m mrnHx).record "C_MRN_CALCULATED").good_enough = true ∧
      ((use_mrn_hx m mrnHx).record "C_MRN_CALCULATED").match_quality =
        .MATCHED_CALCULATED ∧
      (use_mrn_hx m mrnHx).update.needed = true) := by
  have ha := reviseField_spec m "C_NAME_CALCULATED" aliases
  have hm := reviseField_spec m "C_MRN_CALCULATED" mrnHx
  exact ⟨ha.1, ha.2.1, ha.2.2, hm.1, hm.2.1, hm.2.2⟩

/-- C9 witness: a record whose name comparison is not good enough, revised
with an alias that matches, gains exactly one point and records an update. -/
theorem C9_witness :
    ((use_aliases demoRevisionRecord ["Smyth,Alan Baker"]).score =
      demoRevisionRecord.score +
        reviseFlips demoRevisionRecord "C_NAME_CALCULATED" ["Smyth,Alan Baker"]) ∧
    reviseFlips demoRevisionRecord "C_NAME_CALCULATED" ["Smyth,Alan Baker"] = 1 ∧
    ((use_aliases demoRevisionRecord ["Smyth,Alan Baker"]).record
        "C_NAME_CALCULATED").good_enough = true ∧
    (use_aliases demoRevisionRecord ["Smyth,Alan Baker"]).update.needed = true := by
  have h := C9_revision_monotonic demoRevisionRecord ["Smyth,Alan Baker"] []
  have hflip : reviseFlips demoRevisionRecord "C_NAME_CALCULATED" ["Smyth,Alan Baker"] = 1 := by
    decide
  exact ⟨h.1, hflip, (h.2.2.1 hflip).1, (h.2.2.1 hflip).2.2⟩

end RedcapMatchResolver
